import Mathlib

/-!
# Verification of the GstPipeline frame hand-off core (examples-camera, gstreamer.py)

Shallow embedding of `src/gstreamer/gstreamer.py`. The concurrency core of
that file is a single-slot frame mailbox (`self.gstbuffer` guarded by
`self.condition`), a worker loop (`inference_loop`), a producer callback
(`on_new_sample`), shutdown sequencing in `run`, bus-message dispatch
(`on_bus_message`) and a memoized region accessor (`get_box`).

Frames are modelled as natural numbers (opaque buffer handles); element
properties as integers.
-/

namespace GstPipeline

/-- An opaque handle to a decoded frame buffer (`Gst.Buffer`). -/
abbrev Frame := Nat

/-- The `Gst.FlowReturn` value handed back from `on_new_sample`.
The source always returns `Gst.FlowReturn.OK`; the error alternative exists
in the GStreamer API and is included so that "returns OK rather than an
error" is a meaningful statement. -/
inductive FlowReturn
  | ok
  | error
deriving DecidableEq

/-- A sample pulled from the appsink: caps carry the negotiated
(width, height); the payload is the buffer handle. -/
structure Sample where
  caps : Int × Int
  buffer : Frame
deriving DecidableEq

/-- The shared state guarded by `self.condition`:
`running` (the run flag), `gstbuffer` (the single mailbox slot,
`none` = empty), and `sink_size` (set once from the first sample's caps). -/
structure MState where
  running : Bool
  gstbuffer : Option Frame
  sink_size : Option (Int × Int)
deriving DecidableEq

/-- `GstPipeline.on_new_sample` (gstreamer.py lines 87-95): if `sink_size`
is unset, record the caps; then, under the condition lock, overwrite the
slot with the new buffer and notify; return `Gst.FlowReturn.OK`.
There is no check of `running` and no occupancy check: the slot is
unconditionally replaced. -/
def on_new_sample (s : MState) (sample : Sample) : MState × FlowReturn :=
  let s1 := if s.sink_size = none then { s with sink_size := some sample.caps } else s
  ({ s1 with gstbuffer := some sample.buffer }, FlowReturn.ok)

/-- Result of one pass of the worker's take step. -/
inductive TakeResult
  | terminal
  | frame (f : Frame)
deriving DecidableEq

/-- The take step of `GstPipeline.inference_loop` (gstreamer.py lines
116-122), evaluated at the moment the worker holds the lock:
`while not self.gstbuffer and self.running: wait` — so the worker keeps
waiting (result `none`) exactly when the slot is empty and `running` holds;
`if not self.running: break` — terminal whenever `running` is cleared,
even if the slot is occupied; otherwise move the buffer out of the slot. -/
def takeStep (s : MState) : Option (TakeResult × MState) :=
  match s.gstbuffer, s.running with
  | none, true => none
  | _, false => some (TakeResult.terminal, s)
  | some f, true => some (TakeResult.frame f, { s with gstbuffer := none })

/-- Number of frames held in the mailbox slot. -/
def slotCount (s : MState) : Nat :=
  s.gstbuffer.toList.length

/-- C1: the mailbox is single-slot with latest-frame-wins semantics:
a deposit replaces the slot contents, two deposits with no intervening
take leave exactly the second frame retrievable, and the slot never
holds more than one frame. -/
theorem mailbox_single_slot_latest_wins (s : MState) (a b : Sample)
    (hrun : ((on_new_sample (on_new_sample s a).1 b).1).running = true) :
    ((on_new_sample (on_new_sample s a).1 b).1).gstbuffer = some b.buffer
    ∧ slotCount (on_new_sample (on_new_sample s a).1 b).1 = 1
    ∧ (∀ t : MState, slotCount t ≤ 1)
    ∧ takeStep (on_new_sample (on_new_sample s a).1 b).1 =
        some (TakeResult.frame b.buffer,
          { (on_new_sample (on_new_sample s a).1 b).1 with gstbuffer := none }) := by
  refine ⟨?_, ?_, ?_, ?_⟩
  · simp [on_new_sample]
  · simp [on_new_sample, slotCount]
  · intro t
    cases h : t.gstbuffer <;> simp [slotCount, h]
  · have hbuf : ((on_new_sample (on_new_sample s a).1 b).1).gstbuffer = some b.buffer := by
      simp [on_new_sample]
    rw [takeStep.eq_def, hbuf, hrun]
    simp [hrun]

/-- Witness for `mailbox_single_slot_latest_wins` at a concrete state. -/
theorem mailbox_single_slot_latest_wins_witness :
    ((on_new_sample (on_new_sample ⟨true, none, none⟩ ⟨(640, 480), 1⟩).1
        ⟨(640, 480), 2⟩).1).gstbuffer = some 2 :=
  (mailbox_single_slot_latest_wins ⟨true, none, none⟩ ⟨(640, 480), 1⟩ ⟨(640, 480), 2⟩
    (by decide)).1

/-- C2 counterexample: at the state where the slot is occupied by frame 5
but `running` has been cleared, `inference_loop` breaks out (terminal)
instead of delivering the frame — refuting the claim that the terminal
result occurs only when the slot is empty, and that an occupied slot is
always drained. -/
theorem takeStep_terminal_despite_occupied_slot :
    takeStep ⟨false, some 5, some (640, 480)⟩ =
        some (TakeResult.terminal, ⟨false, some 5, some (640, 480)⟩)
    ∧ (⟨false, some 5, some (640, 480)⟩ : MState).gstbuffer ≠ none := by
  constructor
  · rfl
  · simp

/-- C2 amended: the take step waits exactly while the slot is empty and
`running` holds; it returns terminal exactly when `running` is cleared,
regardless of slot contents (an undelivered frame present at shutdown is
discarded); only when `running` holds and the slot is occupied does it
move the frame out. -/
theorem takeStep_characterization (s : MState) :
    (takeStep s = none ↔ s.gstbuffer = none ∧ s.running = true)
    ∧ ((∃ s', takeStep s = some (TakeResult.terminal, s')) ↔ s.running = false)
    ∧ (s.running = true → ∀ f, s.gstbuffer = some f →
        takeStep s = some (TakeResult.frame f, { s with gstbuffer := none })) := by
  refine ⟨?_, ?_, ?_⟩
  · cases hb : s.gstbuffer <;> cases hr : s.running <;>
      simp [takeStep, hb, hr]
  · cases hb : s.gstbuffer <;> cases hr : s.running <;>
      simp [takeStep, hb, hr]
  · intro hr f hb
    rw [takeStep.eq_def, hb, hr]

/-- Witness for `takeStep_characterization` at a concrete running,
occupied state. -/
theorem takeStep_characterization_witness :
    takeStep ⟨true, some 7, none⟩ =
      some (TakeResult.frame 7, { (⟨true, some 7, none⟩ : MState) with gstbuffer := none }) :=
  (takeStep_characterization ⟨true, some 7, none⟩).2.2 rfl 7 rfl

/-- The straight-line steps of `GstPipeline.run` (gstreamer.py lines
52-72), in program order. -/
inductive RunStep
  | setRunningTrue
  | startWorker
  | setStatePlaying
  | gtkMain
  | setStateNull
  | drainMainContext
  | lockAcquire
  | clearRunning
  | notifyAll
  | lockRelease
  | joinWorker
deriving DecidableEq

/-- The sequence of steps `run` executes: `self.running = True`, start the
worker thread, set the pipeline PLAYING, block in `Gtk.main()`, then tear
down: set NULL, drain the GLib main context, and under the condition lock
clear `running` and `notify_all`, finally `worker.join()`. -/
def runSteps : List RunStep :=
  [RunStep.setRunningTrue, RunStep.startWorker, RunStep.setStatePlaying,
   RunStep.gtkMain, RunStep.setStateNull, RunStep.drainMainContext,
   RunStep.lockAcquire, RunStep.clearRunning, RunStep.notifyAll,
   RunStep.lockRelease, RunStep.joinWorker]

/-- Control-thread view of the shared state plus whether the condition has
been signaled since teardown began. -/
structure CtrlState where
  m : MState
  notified : Bool
deriving DecidableEq

/-- Effect of each `run` step on the shared state (steps that only touch
the pipeline, the GTK loop or the thread object leave it unchanged). -/
def applyRunStep (c : CtrlState) : RunStep → CtrlState
  | RunStep.setRunningTrue => { c with m := { c.m with running := true } }
  | RunStep.clearRunning => { c with m := { c.m with running := false } }
  | RunStep.notifyAll => { c with notified := true }
  | _ => c

/-- C3: in `run`'s shutdown sequence the worker is joined exactly once,
strictly after `running` is cleared and the condition is signaled (both
between lock acquire and release), and at the point `join` executes the
shared state has `running = false` with the condition already signaled —
whatever the state was when teardown began. -/
theorem join_after_clear_and_signal (c0 : CtrlState) :
    runSteps.indexOf RunStep.clearRunning < runSteps.indexOf RunStep.joinWorker
    ∧ runSteps.indexOf RunStep.notifyAll < runSteps.indexOf RunStep.joinWorker
    ∧ runSteps.indexOf RunStep.lockAcquire < runSteps.indexOf RunStep.clearRunning
    ∧ runSteps.indexOf RunStep.notifyAll < runSteps.indexOf RunStep.lockRelease
    ∧ runSteps.count RunStep.joinWorker = 1
    ∧ ((runSteps.takeWhile (fun st => st ≠ RunStep.joinWorker)).foldl
          applyRunStep c0).m.running = false
    ∧ ((runSteps.takeWhile (fun st => st ≠ RunStep.joinWorker)).foldl
          applyRunStep c0).notified = true := by
  refine ⟨by decide, by decide, by decide, by decide, by decide, ?_, ?_⟩ <;>
    simp [runSteps, applyRunStep]

/-- An event at the mailbox: either the appsink callback fires with a new
sample, or the worker reaches its take step. -/
inductive MEvent
  | deposit (sample : Sample)
  | takeAttempt
deriving DecidableEq

/-- The frames deposited by an event sequence, in deposit order. -/
def depositsOf : List MEvent → List Frame
  | [] => []
  | MEvent.deposit sm :: es => sm.buffer :: depositsOf es
  | MEvent.takeAttempt :: es => depositsOf es

/-- The frames the worker receives when the events run against the shared
state: a deposit runs `on_new_sample`, a take attempt runs the worker's
take step (a waiting worker receives nothing; after a terminal result
nothing more is received on that attempt). -/
def delivered : List MEvent → MState → List Frame
  | [], _ => []
  | MEvent.deposit sm :: es, s => delivered es (on_new_sample s sm).1
  | MEvent.takeAttempt :: es, s =>
    match takeStep s with
    | some (TakeResult.frame f, s') => f :: delivered es s'
    | some (TakeResult.terminal, _) => delivered es s
    | none => delivered es s

/-- Strengthened invariant: starting from any slot, the frames the worker
receives form a sublist of the slot contents followed by the frames
deposited. -/
theorem delivered_sublist_aux (es : List MEvent) :
    ∀ s : MState, List.Sublist (delivered es s) (s.gstbuffer.toList ++ depositsOf es) := by
  induction es with
  | nil => intro s; simp [delivered, depositsOf]
  | cons e es ih =>
    intro s
    cases e with
    | deposit sm =>
      have h1 : List.Sublist (delivered es (on_new_sample s sm).1)
          (sm.buffer :: depositsOf es) := by
        have := ih (on_new_sample s sm).1
        simpa [on_new_sample] using this
      have h2 : List.Sublist (sm.buffer :: depositsOf es)
          (s.gstbuffer.toList ++ sm.buffer :: depositsOf es) :=
        List.sublist_append_right _ _
      show List.Sublist (delivered es (on_new_sample s sm).1)
          (s.gstbuffer.toList ++ sm.buffer :: depositsOf es)
      exact h1.trans h2
    | takeAttempt =>
      cases hb : s.gstbuffer with
      | none =>
        cases hr : s.running with
        | true =>
          have := ih s
          simpa [delivered, depositsOf, takeStep, hb, hr] using this
        | false =>
          have := ih s
          simpa [delivered, depositsOf, takeStep, hb, hr] using this
      | some f =>
        cases hr : s.running with
        | true =>
          have := ih ⟨true, none, s.sink_size⟩
          simp only [delivered, depositsOf, takeStep, hb, hr]
          simpa using (this.cons₂ f)
        | false =>
          have := ih s
          simpa [delivered, depositsOf, takeStep, hb, hr] using this

/-- C4: starting from an empty slot, the frames the worker receives are a
sublist of the deposit sequence in deposit order — nothing delivered
twice, nothing reordered, dropped frames skipped; in particular after
rapid deposits of frames 1, 2, 3 with no intervening take the worker's
next take delivers exactly frame 3. -/
theorem delivered_sublist_of_deposits (es : List MEvent) (s : MState)
    (hempty : s.gstbuffer = none) :
    List.Sublist (delivered es s) (depositsOf es)
    ∧ delivered
        [MEvent.deposit ⟨(640, 480), 1⟩, MEvent.deposit ⟨(640, 480), 2⟩,
         MEvent.deposit ⟨(640, 480), 3⟩, MEvent.takeAttempt]
        ⟨true, none, none⟩ = [3] := by
  constructor
  · have := delivered_sublist_aux es s
    simpa [hempty] using this
  · decide

/-- Witness for `delivered_sublist_of_deposits` at a concrete trace. -/
theorem delivered_sublist_of_deposits_witness :
    List.Sublist
      (delivered [MEvent.deposit ⟨(640, 480), 4⟩, MEvent.takeAttempt]
        ⟨true, none, none⟩)
      (depositsOf [MEvent.deposit ⟨(640, 480), 4⟩, MEvent.takeAttempt]) :=
  (delivered_sublist_of_deposits
    [MEvent.deposit ⟨(640, 480), 4⟩, MEvent.takeAttempt]
    ⟨true, none, none⟩ rfl).1

/-- The bus message kinds `on_bus_message` distinguishes. -/
inductive MsgType
  | eos
  | warning
  | error
deriving DecidableEq

/-- What `on_bus_message` (gstreamer.py lines 74-85) does for each kind:
EOS quits the GTK main loop; WARNING writes to stderr and continues;
ERROR writes to stderr and quits the GTK main loop. -/
inductive BusAction
  | quitMain
  | logWarning
  | logErrorAndQuitMain
deriving DecidableEq

/-- `GstPipeline.on_bus_message` dispatch (gstreamer.py lines 74-85). -/
def on_bus_message : MsgType → BusAction
  | MsgType.eos => BusAction.quitMain
  | MsgType.warning => BusAction.logWarning
  | MsgType.error => BusAction.logErrorAndQuitMain

/-- Whether the bus action makes `Gtk.main()` return (ends the session). -/
def quitsMainLoop : BusAction → Bool
  | BusAction.quitMain => true
  | BusAction.logWarning => false
  | BusAction.logErrorAndQuitMain => true

/-- What `run` (gstreamer.py lines 52-72) does after `Gtk.main()` returns,
whichever message ended the loop: the teardown (NULL state, drain, clear
flag, signal, join) runs unconditionally, `run` returns normally, and no
exception escapes (the `try/except: pass` swallows any exception raised
inside `Gtk.main()`; nothing in the module calls `sys.exit`). -/
structure RunResult where
  tornDown : Bool
  uncaughtException : Bool
deriving DecidableEq

/-- The outcome of `run` for the message kind that ended the main loop.
The teardown path of `run` is the same straight-line code for every cause,
so the result does not depend on the cause. -/
def run_return (_endCause : MsgType) : RunResult :=
  { tornDown := true, uncaughtException := false }

/-- Process exit status under CPython semantics: a script that returns from
its top-level call without an uncaught exception exits with status 0; an
uncaught exception exits non-zero. -/
def processExitCode (r : RunResult) : Nat :=
  if r.uncaughtException then 1 else 0

/-- C5 counterexample: a fatal pipeline ERROR does quit the main loop, but
the process then exits with status 0 — not non-zero as claimed. -/
theorem error_exit_code_is_zero :
    quitsMainLoop (on_bus_message MsgType.error) = true
    ∧ ¬ processExitCode (run_return MsgType.error) ≠ 0 := by
  constructor
  · rfl
  · simp [processExitCode, run_return]

/-- C5 amended: every session end — EOS, explicit quit, and also a fatal
pipeline ERROR (which is logged and quits the main loop) — leads to clean
teardown and a normal process exit with status 0; no path produces a
non-zero exit status. -/
theorem session_end_exits_zero (m : MsgType)
    (hquit : quitsMainLoop (on_bus_message m) = true) :
    (run_return m).tornDown = true
    ∧ processExitCode (run_return m) = 0
    ∧ on_bus_message MsgType.error = BusAction.logErrorAndQuitMain := by
  exact ⟨rfl, rfl, rfl⟩

/-- Witness for `session_end_exits_zero` at the ERROR message. -/
theorem session_end_exits_zero_witness :
    processExitCode (run_return MsgType.error) = 0 :=
  (session_end_exits_zero MsgType.error rfl).2.1

/-- C8 amended: depositing into the mailbox after teardown has cleared
`running` succeeds silently — the slot is overwritten and
`Gst.FlowReturn.OK` is returned; `on_new_sample` never consults `running`
and signals no precondition violation. -/
theorem deposit_after_teardown_succeeds (s : MState) (sample : Sample)
    (hdown : s.running = false) :
    ((on_new_sample s sample).1).gstbuffer = some sample.buffer
    ∧ (on_new_sample s sample).2 = FlowReturn.ok
    ∧ ((on_new_sample s sample).1).running = false := by
  refine ⟨?_, rfl, ?_⟩
  · simp [on_new_sample]
  · cases h : s.sink_size <;> simp [on_new_sample, h, hdown]

/-- Witness for `deposit_after_teardown_succeeds` at a concrete torn-down
state. -/
theorem deposit_after_teardown_succeeds_witness :
    ((on_new_sample ⟨false, none, some (640, 480)⟩ ⟨(640, 480), 9⟩).1).gstbuffer
      = some 9 :=
  (deposit_after_teardown_succeeds ⟨false, none, some (640, 480)⟩
    ⟨(640, 480), 9⟩ rfl).1

/-- C8 counterexample: at a torn-down state the deposit returns
`FlowReturn.ok` (not an error) and replaces the slot — no precondition
violation is signaled. -/
theorem deposit_after_teardown_no_violation :
    (on_new_sample ⟨false, some 3, some (640, 480)⟩ ⟨(640, 480), 4⟩).2
        = FlowReturn.ok
    ∧ (on_new_sample ⟨false, some 3, some (640, 480)⟩ ⟨(640, 480), 4⟩).2
        ≠ FlowReturn.error
    ∧ ((on_new_sample ⟨false, some 3, some (640, 480)⟩ ⟨(640, 480), 4⟩).1).gstbuffer
        = some 4 := by
  refine ⟨rfl, ?_, rfl⟩
  simp [on_new_sample]

/-- An update applied to an overlay element: `self.overlay.set_property`
with key `data`, or `self.overlaysink.set_property` with key `svg`. -/
inductive SinkUpdate
  | overlayData (svg : String)
  | overlaysinkSvg (svg : String)
deriving DecidableEq

/-- Python truthiness of the user callback's return value: `None` and the
empty string are falsy, any other string is truthy. -/
def svgTruthy : Option String → Bool
  | none => false
  | some s => s != ""

/-- The publication step at the end of each `inference_loop` iteration
(gstreamer.py lines 130-135): `if svg:` then, if the `overlay` element was
found in the pipeline, set its `data` property, and if the `overlaysink`
element was found, set its `svg` property — both with the same string.
`overlay`/`overlaysink` say whether `pipeline.get_by_name` found each
element in `__init__`. -/
def publish_overlay (overlay overlaysink : Bool) (svg : Option String) :
    List SinkUpdate :=
  match svg with
  | none => []
  | some s =>
    if s != "" then
      (if overlay then [SinkUpdate.overlayData s] else []) ++
      (if overlaysink then [SinkUpdate.overlaysinkSvg s] else [])
    else []

/-- C9: if the callback's result is non-empty, every overlay sink present
is updated with exactly that description (and sinks not present are not
updated); if the result is empty or absent, no sink is updated at all. -/
theorem publish_overlay_updates_all_present_sinks
    (overlay overlaysink : Bool) (svg : Option String) :
    (∀ s, svg = some s → s ≠ "" →
      publish_overlay overlay overlaysink svg =
        (if overlay then [SinkUpdate.overlayData s] else []) ++
        (if overlaysink then [SinkUpdate.overlaysinkSvg s] else []))
    ∧ (svgTruthy svg = false → publish_overlay overlay overlaysink svg = []) := by
  constructor
  · intro s hs hne
    subst hs
    simp [publish_overlay, hne]
  · intro hfalse
    cases svg with
    | none => rfl
    | some s =>
      have hs : s = "" := by
        simpa [svgTruthy] using hfalse
      simp [publish_overlay, hs]

/-- Witness for `publish_overlay_updates_all_present_sinks` with both
sinks present and a non-empty description. -/
theorem publish_overlay_updates_all_present_sinks_witness :
    publish_overlay true true (some "<svg/>") =
      [SinkUpdate.overlayData "<svg/>", SinkUpdate.overlaysinkSvg "<svg/>"] := by
  have h := (publish_overlay_updates_all_present_sinks true true
    (some "<svg/>")).1 "<svg/>" rfl (by decide)
  simpa using h

/-- A region rectangle (x, y, width, height) as returned by `get_box`. -/
abbrev Region := Int × Int × Int × Int

/-- Properties of the inner filter element of the `glbox` bin
(`glbox.get_property` of x/y/width/height in gstreamer.py lines 106-107). -/
structure BoxFilterProps where
  x : Int
  y : Int
  width : Int
  height : Int
deriving DecidableEq

/-- The element named `glbox` (a `glfilterbin`): `get_by_name` on it looks
up a child named `filter`, which may or may not exist. -/
structure GlboxBin where
  filter : Option BoxFilterProps
deriving DecidableEq

/-- Properties of the `videobox` element named `box`
(`box.get_property` of left/top/right/bottom in gstreamer.py lines
109-111). -/
structure CropProps where
  left : Int
  top : Int
  right : Int
  bottom : Int
deriving DecidableEq

/-- The two `assert` statements in `get_box` (gstreamer.py lines 103-104),
in source order: `assert glbox or box` then `assert self.sink_size`. -/
inductive GetBoxFault
  | assertNoElement
  | assertNoSinkSize
deriving DecidableEq

/-- The state `get_box` reads: the memo field `self.box`, the result of
`pipeline.get_by_name` for the names `glbox` and `box` (`boxElem` stands
for the local variable `box`, distinct from the memo field), and
`self.sink_size`. -/
structure PState where
  box : Option Region
  glbox : Option GlboxBin
  boxElem : Option CropProps
  sink_size : Option (Int × Int)
deriving DecidableEq

/-- `GstPipeline.get_box` (gstreamer.py lines 97-112). `if not self.box:`
— a cached 4-tuple is always truthy, so a memoized region is returned
unconditionally. Otherwise: look up `glbox` and, when found, descend to
its `filter` child; look up `box`; `assert glbox or box`; `assert
self.sink_size`; derive the region from the glbox filter's x/y/width/height
when the filter was found, else from `sink_size` and the videobox insets:
`(-left, -top, width + left + right, height + top + bottom)`; memoize it. -/
def get_box (s : PState) : Except GetBoxFault (Region × PState) :=
  match s.box with
  | some b => Except.ok (b, s)
  | none =>
    let glbox := s.glbox.bind GlboxBin.filter
    if glbox = none ∧ s.boxElem = none then
      Except.error GetBoxFault.assertNoElement
    else
      match s.sink_size with
      | none => Except.error GetBoxFault.assertNoSinkSize
      | some sz =>
        match glbox with
        | some g =>
          let r : Region := (g.x, g.y, g.width, g.height)
          Except.ok (r, { s with box := some r })
        | none =>
          match s.boxElem with
          | some b =>
            let r : Region :=
              (-b.left, -b.top, sz.1 + b.left + b.right, sz.2 + b.top + b.bottom)
            Except.ok (r, { s with box := some r })
          | none => Except.error GetBoxFault.assertNoElement

/-- Whenever `get_box` succeeds, the state it returns has the produced
region memoized in `self.box`. -/
theorem get_box_memoizes (s : PState) (r : Region) (s' : PState)
    (h : get_box s = Except.ok (r, s')) : s'.box = some r := by
  unfold get_box at h
  cases hbox : s.box with
  | some b =>
    rw [hbox] at h
    simp at h
    obtain ⟨h1, h2⟩ := h
    subst h1
    subst h2
    exact hbox
  | none =>
    rw [hbox] at h
    cases hg : s.glbox.bind GlboxBin.filter <;>
      cases hbe : s.boxElem <;>
        cases hsz : s.sink_size <;>
          simp [hg, hbe, hsz] at h
    all_goals obtain ⟨h1, h2⟩ := h
    all_goals subst h2
    all_goals simp [h1]

/-- C6: region resolution is memoized and idempotent: once a call has
succeeded and cached a region, every later call returns that identical
cached rectangle unconditionally, whatever the `glbox`/`box` element
properties and `sink_size` have drifted to in the meantime. -/
theorem get_box_idempotent_after_success (s : PState) (r : Region) (s' : PState)
    (h : get_box s = Except.ok (r, s'))
    (glbox' : Option GlboxBin) (boxElem' : Option CropProps)
    (sink' : Option (Int × Int)) :
    get_box { box := s'.box, glbox := glbox', boxElem := boxElem',
              sink_size := sink' }
      = Except.ok (r, { box := s'.box, glbox := glbox', boxElem := boxElem',
                        sink_size := sink' }) := by
  have hb := get_box_memoizes s r s' h
  unfold get_box
  simp [hb]

/-- Witness for `get_box_idempotent_after_success`: resolve once through
the glbox path, then re-query with every pipeline property dropped. -/
theorem get_box_idempotent_after_success_witness :
    get_box { box := (({ box := some ((1 : Int), (2 : Int), (3 : Int), (4 : Int)),
                          glbox := some ⟨some ⟨1, 2, 3, 4⟩⟩, boxElem := none,
                          sink_size := some (640, 480) } : PState)).box,
              glbox := none, boxElem := none, sink_size := none }
      = Except.ok (((1 : Int), (2 : Int), (3 : Int), (4 : Int)),
          { box := (({ box := some ((1 : Int), (2 : Int), (3 : Int), (4 : Int)),
                        glbox := some ⟨some ⟨1, 2, 3, 4⟩⟩, boxElem := none,
                        sink_size := some (640, 480) } : PState)).box,
            glbox := none, boxElem := none, sink_size := none }) :=
  get_box_idempotent_after_success
    { box := none, glbox := some ⟨some ⟨1, 2, 3, 4⟩⟩, boxElem := none,
      sink_size := some (640, 480) }
    ((1 : Int), (2 : Int), (3 : Int), (4 : Int))
    { box := some ((1 : Int), (2 : Int), (3 : Int), (4 : Int)),
      glbox := some ⟨some ⟨1, 2, 3, 4⟩⟩, boxElem := none,
      sink_size := some (640, 480) }
    rfl none none none

/-- The two pipeline topologies `run_pipeline` (gstreamer.py lines
204-237) constructs. Modelled from the pipeline strings in the source: on
the Coral dev board the pipeline contains `glfilterbin filter=glbox
name=glbox` and no element named `box`; otherwise it contains `videobox
name=box` and no element named `glbox`. That a `glfilterbin` exposes its
configured filter under the child name `filter` is GStreamer behavior
external to this repository, modelled as the child being present. -/
def runPipelineTopology (s : PState) : Prop :=
  (∃ g, s.glbox = some ⟨some g⟩ ∧ s.boxElem = none) ∨
  (∃ b, s.glbox = none ∧ s.boxElem = some b)

/-- C7: on either pipeline `run_pipeline` builds, calling `get_box` before
the sink resolution is known (no region cached yet, `sink_size` unset)
signals an assertion-style fault and returns no region; once `sink_size`
is set, the `assert self.sink_size` branch is unreachable and resolution
completes with a region. -/
theorem get_box_sink_size_precondition (s : PState)
    (htopo : runPipelineTopology s) :
    (s.box = none → s.sink_size = none → ∃ f, get_box s = Except.error f)
    ∧ (s.sink_size ≠ none →
        get_box s ≠ Except.error GetBoxFault.assertNoSinkSize
        ∧ ∃ r s', get_box s = Except.ok (r, s')) := by
  constructor
  · intro hbox hsz
    rcases htopo with ⟨g, hg, hbe⟩ | ⟨b, hg, hbe⟩
    · exact ⟨GetBoxFault.assertNoSinkSize,
        by simp [get_box, hbox, hsz, hg, hbe, GlboxBin.filter]⟩
    · exact ⟨GetBoxFault.assertNoSinkSize,
        by simp [get_box, hbox, hsz, hg, hbe]⟩
  · intro hsz
    obtain ⟨sz, hsz'⟩ := Option.ne_none_iff_exists'.mp hsz
    cases hbox : s.box with
    | some b =>
      constructor
      · simp [get_box, hbox]
      · exact ⟨b, s, by simp [get_box, hbox]⟩
    | none =>
      rcases htopo with ⟨g, hg, hbe⟩ | ⟨b, hg, hbe⟩
      · constructor
        · simp [get_box, hbox, hsz', hg, hbe, GlboxBin.filter]
        · exact ⟨(g.x, g.y, g.width, g.height),
            { s with box := some (g.x, g.y, g.width, g.height) },
            by simp [get_box, hbox, hsz', hg, hbe, GlboxBin.filter]⟩
      · constructor
        · simp [get_box, hbox, hsz', hg, hbe]
        · exact ⟨(-b.left, -b.top, sz.1 + b.left + b.right,
              sz.2 + b.top + b.bottom),
            { s with box := some (-b.left, -b.top, sz.1 + b.left + b.right,
                sz.2 + b.top + b.bottom) },
            by simp [get_box, hbox, hsz', hg, hbe]⟩

/-- Witness for `get_box_sink_size_precondition`: on the dev-board
topology with no frame observed yet, `get_box` faults. -/
theorem get_box_sink_size_precondition_witness :
    ∃ f, get_box { box := none, glbox := some ⟨some ⟨0, 0, 300, 300⟩⟩,
                   boxElem := none, sink_size := none } = Except.error f :=
  (get_box_sink_size_precondition
    { box := none, glbox := some ⟨some ⟨0, 0, 300, 300⟩⟩,
      boxElem := none, sink_size := none }
    (Or.inl ⟨⟨0, 0, 300, 300⟩, rfl, rfl⟩)).1 rfl rfl

/-- C10: with no region cached, `get_box` needs one of the two mapping
elements: if neither the glbox filter nor the `box` element exists the
call fails on `assert glbox or box`; and when the glbox filter exists it
takes priority — the region comes from its x/y/width/height, whatever the
`box` element holds. -/
theorem get_box_element_requirement_and_priority (s : PState)
    (hcache : s.box = none) :
    (s.glbox.bind GlboxBin.filter = none → s.boxElem = none →
        get_box s = Except.error GetBoxFault.assertNoElement)
    ∧ (∀ g, s.glbox.bind GlboxBin.filter = some g →
        ∀ sz, s.sink_size = some sz →
          get_box s = Except.ok ((g.x, g.y, g.width, g.height),
            { s with box := some (g.x, g.y, g.width, g.height) })) := by
  constructor
  · intro hg hbe
    simp [get_box, hcache, hg, hbe]
  · intro g hg sz hsz
    simp [get_box, hcache, hg, hsz]

/-- Witness for `get_box_element_requirement_and_priority`: with both a
glbox filter and a `box` element present, the region comes from the glbox
filter. -/
theorem get_box_element_requirement_and_priority_witness :
    get_box { box := none, glbox := some ⟨some ⟨5, 6, 7, 8⟩⟩,
              boxElem := some ⟨10, 20, 30, 40⟩, sink_size := some (640, 480) }
      = Except.ok (((5 : Int), (6 : Int), (7 : Int), (8 : Int)),
          { box := some ((5 : Int), (6 : Int), (7 : Int), (8 : Int)),
            glbox := some ⟨some ⟨5, 6, 7, 8⟩⟩,
            boxElem := some ⟨10, 20, 30, 40⟩, sink_size := some (640, 480) }) :=
  (get_box_element_requirement_and_priority
    { box := none, glbox := some ⟨some ⟨5, 6, 7, 8⟩⟩,
      boxElem := some ⟨10, 20, 30, 40⟩, sink_size := some (640, 480) }
    rfl).2 ⟨5, 6, 7, 8⟩ rfl (640, 480) rfl

end GstPipeline
